import Mathlib

/-!
Verification development for the SOS-app repository.

The repository consists of a BLE link manager (`BLEService`, including the
base64 signal codec and SOS classification), a location acquirer, delivery
channels (Firebase cloud relay / direct-and-composer SMS), and an alert
dispatch pipeline (`SOSService.triggerSOS`, in a cloud variant and an SMS
variant), with a capped history log in `AsyncStorage`.

Each TypeScript function relevant to the claims is shallowly embedded below as
an executable Lean definition; effectful code is modelled by explicit state
passing plus an effect trace, and exceptions by `Except`-shaped control flow
mirroring the source's try/catch structure.
-/

namespace SosApp

/-! ### JavaScript string helpers

`String.prototype.includes` over explicit character lists; used by the signal
classifier (`data.includes('SOS') || data.includes('1')`) and by the scan name
filter (`device.name.includes('HM')` ...). -/

/-- Does `hay` start with `needle`?  (The prefix test underlying
`String.prototype.includes`.) -/
def startsWith : List Char → List Char → Bool
  | _, [] => true
  | [], _ :: _ => false
  | a :: hs, b :: ns => a == b && startsWith hs ns

/-- JavaScript `hay.includes(needle)`: `needle` occurs contiguously in `hay`
(case-sensitive). -/
def jsIncludes (hay needle : List Char) : Bool :=
  startsWith hay needle ||
    match hay with
    | [] => false
    | _ :: t => jsIncludes t needle

/-! ### Signal codec (`BLEService.base64Decode`) and classifier

Embedding of the hand-rolled base64 decoder: the input is first stripped of
every character outside `[A-Za-z0-9+/=]` (the `replace` call), then consumed
four alphabet-indices at a time.  A `charAt` past the end of the string yields
`""` in JavaScript, whose `indexOf` in the alphabet is `0`; the partial-group
cases therefore read the missing indices as `0`. -/

/-- The 65-character lookup string `chars` of `base64Decode`
(`'ABCDEFGHIJKLMNOPQRSTUVWXYZabcdefghijklmnopqrstuvwxyz0123456789+/='`). -/
def b64Alphabet : List Char :=
  ("ABCDEFGHIJKLMNOPQRSTUVWXYZabcdefghijklmnopqrstuvwxyz0123456789+/=").toList

/-- The regex class `[A-Za-z0-9+/=]` kept by the stripping `replace`. -/
def isB64Char (c : Char) : Bool :=
  ('A' ≤ c && c ≤ 'Z') || ('a' ≤ c && c ≤ 'z') || ('0' ≤ c && c ≤ '9') ||
    c == '+' || c == '/' || c == '='

/-- `chars.indexOf c` for a character of the alphabet (the stripping guarantees
membership, so the JavaScript `-1` case is unreachable). -/
def b64Index (c : Char) : Nat :=
  b64Alphabet.indexOf c

/-- One iteration of the decoding loop: from four alphabet indices produce
`chr1`, then `chr2` unless `enc3` is the `=` index 64, then `chr3` unless
`enc4` is 64. -/
def decode4 (enc1 enc2 enc3 enc4 : Nat) : List Nat :=
  let chr1 := (enc1 <<< 2) ||| (enc2 >>> 4)
  let chr2 := ((enc2 &&& 15) <<< 4) ||| (enc3 >>> 2)
  let chr3 := ((enc3 &&& 3) <<< 6) ||| enc4
  chr1 :: ((if enc3 ≠ 64 then [chr2] else []) ++ (if enc4 ≠ 64 then [chr3] else []))

/-- The `while (i < base64.length)` loop over the stripped indices; a group
shorter than four reads the out-of-range positions as index `0` (JavaScript
`indexOf('')`). -/
def decodeLoop : List Nat → List Nat
  | e1 :: e2 :: e3 :: e4 :: rest => decode4 e1 e2 e3 e4 ++ decodeLoop rest
  | [e1, e2, e3] => decode4 e1 e2 e3 0
  | [e1, e2] => decode4 e1 e2 0 0
  | [e1] => decode4 e1 0 0 0
  | [] => []

/-- `BLEService.base64Decode`, producing the character codes of the output
string. -/
def base64Decode (s : List Char) : List Nat :=
  decodeLoop ((s.filter isB64Char).map b64Index)

/-- Character of the encoding alphabet at index `n` (`n < 64` in use). -/
def b64EncChar (n : Nat) : Char :=
  b64Alphabet.getD n 'A'

/-- Standard base64 encoding of a byte sequence (RFC 4648): three bytes per
four characters, `=`-padded tails. -/
def base64Encode : List Nat → List Char
  | b1 :: b2 :: b3 :: rest =>
      b64EncChar (b1 / 4) :: b64EncChar ((b1 % 4) * 16 + b2 / 16) ::
        b64EncChar ((b2 % 16) * 4 + b3 / 64) :: b64EncChar (b3 % 64) ::
          base64Encode rest
  | [b1, b2] =>
      [b64EncChar (b1 / 4), b64EncChar ((b1 % 4) * 16 + b2 / 16),
        b64EncChar ((b2 % 16) * 4), '=']
  | [b1] =>
      [b64EncChar (b1 / 4), b64EncChar ((b1 % 4) * 16), '=', '=']
  | [] => []

/-- The SOS token literal sent by the peripheral (`SOS_SIGNAL`). -/
def SOS_SIGNAL : List Char := ("SOS").toList

/-- The classification applied to each decoded notification payload:
`data.includes(SOS_SIGNAL) || data.includes('1')`. -/
def classifyAsSOS (data : List Char) : Bool :=
  jsIncludes data SOS_SIGNAL || jsIncludes data (("1").toList)

/-! ### History log (`SOSService.logSOSEvent`, `SOSService.getSOSHistory`)

The log lives in `AsyncStorage` under `@sos_logs` as a JSON array.  A stored
value is modelled as either a parseable array of entries or a string
`JSON.parse` rejects; an absent key is `none`. -/

/-- `SOSLog` record of the SMS variant of the service (the cloud variant's
record lacks the `contacts` field; the capacity logic under verification is
the same in both variants). -/
structure SOSLog where
  timestamp : String
  contacts : List String
  location : Option String
  success : Bool
  message : String
deriving DecidableEq

/-- A value stored under the `@sos_logs` key. -/
inductive LogsVal where
  | valid (logs : List SOSLog)
  | corrupt
deriving DecidableEq

/-- The mutation inside `logSOSEvent` on the parsed array:
`logs.unshift(log)` followed by `if (logs.length > 50) logs.pop()`
(`pop` removes the last, i.e. oldest, entry). -/
def logAppend (log : SOSLog) (logs : List SOSLog) : List SOSLog :=
  let logs2 := log :: logs
  if logs2.length > 50 then logs2.dropLast else logs2

/-- `SOSService.logSOSEvent` at the storage level: read `@sos_logs`
(`null` parses to `[]`), prepend and cap, write back.  If `JSON.parse`
throws, the surrounding catch swallows the error and nothing is written. -/
def logSOSEvent (log : SOSLog) (store : Option LogsVal) : Option LogsVal :=
  match store with
  | none => some (.valid (logAppend log []))
  | some (.valid logs) => some (.valid (logAppend log logs))
  | some .corrupt => some .corrupt

/-- `JSON.parse` on a stored `@sos_logs` value. -/
def jsonParseLogs : LogsVal → Except String (List SOSLog)
  | .valid logs => .ok logs
  | .corrupt => .error "SyntaxError: Unexpected token in JSON"

/-- The `try` body of `getSOSHistory`: `logs ? JSON.parse(logs) : []`. -/
def getSOSHistoryTry (store : Option LogsVal) : Except String (List SOSLog) :=
  match store with
  | none => .ok []
  | some v => jsonParseLogs v

/-- `SOSService.getSOSHistory`: the `try`/`catch` returning `[]` on any parse
error.  The second component is the storage after the call (the function only
reads). -/
def getSOSHistory (store : Option LogsVal) : List SOSLog × Option LogsVal :=
  (match getSOSHistoryTry store with
    | .ok logs => logs
    | .error _ => [],
   store)

/-- Entry written by the `i`-th trigger completion in the 51-run scenario. -/
def mkEntry (i : Nat) : SOSLog :=
  { timestamp := toString i, contacts := [], location := none,
    success := true, message := "SOS sent" }

/-- Sequential trigger completions: fold `logAppend` over the entries in
arrival order, starting from the given log. -/
def runLog (entries : List SOSLog) (init : List SOSLog) : List SOSLog :=
  entries.foldl (fun logs e => logAppend e logs) init

/-- The log contents after 51 sequential completions starting from an empty
log, the `i`-th completion writing `mkEntry i`. -/
def logAfter51 : List SOSLog :=
  runLog ((List.range 51).map (fun i => mkEntry (i + 1))) []

/-! ### Location acquirer (`SOSService.getLocationFast`, cloud variant)

Coordinates are modelled as integers; for integral values JavaScript template
interpolation prints a number exactly like `Int` printing (`37` / `-122`),
which is what the spec scenario exercises. -/

/-- A latitude/longitude pair. -/
structure Coords where
  lat : Int
  lng : Int
deriving DecidableEq

/-- The template literal `https://maps.google.com/?q=${lat},${lng}`. -/
def mapsUrl (c : Coords) : String :=
  "https://maps.google.com/?q=" ++ toString c.lat ++ "," ++ toString c.lng

/-- Return shape of the location helpers. -/
structure LocResult where
  url : Option String
  coords : Option Coords
deriving DecidableEq

/-- External state seen by one run of `getLocationFast`:
the existing permission status, the outcome of a permission request raced
against a 2-second timer (`none` = the timer resolved first), the outcome of
`getCurrentPositionAsync` raced against a 5-second timer (`none` = the timer
resolved first), and the cached `getLastKnownPositionAsync` value. -/
structure LocEnv where
  permStatus : String
  permRequest : Option String
  livePosition : Option Coords
  lastKnown : Option Coords

/-- `SOSService.getLocationFast` (cloud variant): permission check with a
2-second bounded request, live fix bounded by 5 seconds, last-known fallback,
`{null, null}` when nothing is available. -/
def getLocationFast (env : LocEnv) : LocResult :=
  let granted :=
    if env.permStatus = "granted" then true
    else
      -- the race resolves `{status:'timeout'}` when the timer wins
      let permResultStatus := match env.permRequest with
        | some s => s
        | none => "timeout"
      permResultStatus = "granted"
  if !granted then ⟨none, none⟩
  else
    match env.livePosition with
    | some c => ⟨some (mapsUrl c), some c⟩
    | none =>
      match env.lastKnown with
      | some c => ⟨some (mapsUrl c), some c⟩
      | none => ⟨none, none⟩

/-! ### BLE link manager: scanning (`BLEService.scanForDevices` and the
`DeviceScreen.startScan` sink)

The native scanner invokes the scan listener once per discovery event with an
error or a device; `scanForDevices` is started with `allowDuplicates: false`,
under which the native layer reports each peripheral identifier at most once
per session. -/

/-- The exported `Device` shape (`{ id, name, rssi }`). -/
structure Device where
  id : String
  name : Option String
  rssi : Option Int
deriving DecidableEq

/-- One invocation of the scan listener: an error or a discovered device. -/
structure ScanEvent where
  error : Bool
  device : Option Device

/-- The name filter of the scan listener:
`name.includes('HM') || ... || name.includes('BLE')` (case-sensitive). -/
def nameMatches (n : String) : Bool :=
  jsIncludes n.toList (("HM").toList) || jsIncludes n.toList (("BT").toList) ||
    jsIncludes n.toList (("SOS").toList) || jsIncludes n.toList (("MLT").toList) ||
      jsIncludes n.toList (("BLE").toList)

/-- What the scan listener forwards to `onDeviceFound` for one event:
`if (error) { onError(error); return; }` then
`if (device && device.name && (…includes…)) onDeviceFound({id, name, rssi})`.
(`device.name` truthy also excludes the empty string.) -/
def scanEmit (e : ScanEvent) : Option Device :=
  if e.error then none
  else
    match e.device with
    | none => none
    | some d =>
      match d.name with
      | none => none
      | some n =>
        if n ≠ "" && nameMatches n then some ⟨d.id, some n, d.rssi⟩ else none

/-- The stream of devices emitted to the caller-supplied sink during one scan
session, in order. -/
def scanEmitted (events : List ScanEvent) : List Device :=
  events.filterMap scanEmit

/-- The `setDevices` updater of `DeviceScreen.startScan`:
`if (prev.some(d => d.id === device.id)) return prev; return [...prev, device]`. -/
def addDevice (prev : List Device) (d : Device) : List Device :=
  if prev.any (fun x => x.id == d.id) then prev else prev ++ [d]

/-- The discovered-device list held by the screen after a scan session. -/
def devicesAfter (events : List ScanEvent) : List Device :=
  (scanEmitted events).foldl addDevice []

/-! ### BLE link manager: connect and subscribe
(`BLEService.connectToDevice`, `BLEService.subscribeToNotifications`) -/

/-- Which awaited BLE transport operations succeed during one connect
attempt. -/
structure BleEnv where
  managerPresent : Bool
  connectOk : Bool
  discoverOk : Bool
  monitorThrows : Bool
  servicesOk : Bool
deriving DecidableEq

/-- How `subscribeToNotifications` concluded. -/
inductive SubscribeOutcome where
  | standard
  | fallback
  | swallowed
deriving DecidableEq

/-- `BLEService.subscribeToNotifications`: try the fixed HM10
service/characteristic pair; on a synchronous throw, enumerate all services
and attach monitors (the fallback); if even that throws, the inner catch logs
the error.  No exception ever escapes this function. -/
def subscribeToNotifications (env : BleEnv) : SubscribeOutcome :=
  if !env.monitorThrows then .standard
  else if env.servicesOk then .fallback
  else .swallowed

/-- The mutable link fields of `BLEService` touched by a connect attempt. -/
structure LinkState where
  connectedDevice : Option Device
  isScanning : Bool
deriving DecidableEq

/-- `BLEService.connectToDevice`: `if (!this.manager) return false`, stop the
scan, connect with `autoConnect`/MTU-512, discover services, record the
connection, subscribe (total), return true; the catch nulls the connection and
returns false. -/
def connectToDevice (env : BleEnv) (dev : Device) (st : LinkState) :
    Bool × LinkState :=
  if !env.managerPresent then (false, st)
  else
    let st1 : LinkState := { st with isScanning := false }
    if !env.connectOk then (false, { st1 with connectedDevice := none })
    else if !env.discoverOk then (false, { st1 with connectedDevice := none })
    else
      let _ := subscribeToNotifications env
      (true, { st1 with connectedDevice := some dev })

/-- `BLEService.isConnected`. -/
def isConnected (st : LinkState) : Bool :=
  st.connectedDevice.isSome

/-- `BLEService.getConnectedDevice`. -/
def getConnectedDevice (st : LinkState) : Option Device :=
  st.connectedDevice

/-! ### Dispatch pipeline (`SOSService.triggerSOS`, both variants)

The pipeline is embedded as a function from an environment (the resolutions of
every awaited external call) and the service state (the `isSending` guard plus
the `AsyncStorage` contents) to the returned `DeliveryOutcome`, the new state,
and the ordered trace of observable side effects. -/

/-- `{ success, message }` returned by a trigger call. -/
structure Outcome where
  success : Bool
  message : String
deriving DecidableEq

/-- Observable side effects of a trigger invocation, in program order. -/
inductive Effect where
  | vibrate (pattern : List Nat)
  | status (s : String)
  | firebaseInit
  | createAlert (lat lng : Int) (url : String)
  | directSmsSend (numbers : String) (msg : String)
  | openUrl (uri : String)
  | logWrite (entry : SOSLog)
deriving DecidableEq

/-- Delivery-channel invocations (cloud relay record creation, native direct
SMS send, composer handoff). -/
def isChannelEffect : Effect → Bool
  | .createAlert _ _ _ => true
  | .directSmsSend _ _ => true
  | .openUrl _ => true
  | _ => false

/-- `error.toString()` for a JavaScript `Error` with the given message. -/
def errToString (e : String) : String := "Error: " ++ e

/-! #### Cloud variant -/

/-- History entry written by the cloud variant (its record has no `contacts`
field; it is embedded with `contacts := []`). -/
def mkCloudLog (now : String) (location : Option String) (success : Bool)
    (message : String) : SOSLog :=
  { timestamp := now, contacts := [], location := location,
    success := success, message := message }

/-- Resolutions of the awaited calls inside the cloud `triggerSOS`:
`firebaseService.init()` and `firebaseService.createSOSAlert` either resolve
(`none`) or reject with an error message. -/
structure CloudEnv where
  loc : LocEnv
  initError : Option String
  createAlertError : Option String
  now : String

/-- Mutable state of the cloud `SOSService`. -/
structure CloudState where
  isSending : Bool
  sosLogs : Option LogsVal
deriving DecidableEq

/-- Cloud `SOSService.triggerSOS`: guard check, vibrate, init, bounded
location fetch, relay-record creation (with the `(0,0)` no-fix fallback),
history append and completion vibration; the catch clears the guard, appends
a failure entry and returns the failure outcome. -/
def triggerSOS_cloud (env : CloudEnv) (st : CloudState) :
    Outcome × CloudState × List Effect :=
  if st.isSending then
    ({ success := false, message := "SOS already in progress" }, st, [])
  else
    let effs0 : List Effect :=
      [.vibrate [0, 300, 100, 300], .status "🚀 Initializing...", .firebaseInit]
    match env.initError with
    | some err =>
      let entry := mkCloudLog env.now none false (errToString err)
      ({ success := false, message := "SOS failed: " ++ err },
       { isSending := false, sosLogs := logSOSEvent entry st.sosLogs },
       effs0 ++ [.logWrite entry])
    | none =>
      let locationResult := getLocationFast env.loc
      let effs1 := effs0 ++ [.status "📍 Getting location...",
        .status "📡 Sending Alert to Cloud..."]
      let alertEffs : List Effect :=
        match locationResult.coords with
        | some c => [.createAlert c.lat c.lng (locationResult.url.getD "")]
        | none => [.status "⚠️ No GPS Fix, sending without location...",
            .createAlert 0 0 "Location not available"]
      match env.createAlertError with
      | some err =>
        let entry := mkCloudLog env.now none false (errToString err)
        ({ success := false, message := "SOS failed: " ++ err },
         { isSending := false, sosLogs := logSOSEvent entry st.sosLogs },
         effs1 ++ alertEffs ++ [.logWrite entry])
      | none =>
        let entry := mkCloudLog env.now locationResult.url true
          "SOS Alert Sent Successfully to all contacts!"
        ({ success := true, message := "🚨 SOS Sent to all apps!" },
         { isSending := false, sosLogs := logSOSEvent entry st.sosLogs },
         effs1 ++ alertEffs ++
           [.logWrite entry, .vibrate [0, 100, 50, 100, 50, 100]])

/-! #### SMS variant -/

/-- A saved emergency contact. -/
structure Contact where
  id : String
  phone : String
  name : String
deriving DecidableEq

/-- A value stored under the `@contacts` key: an array of contact objects, an
old-format array of phone strings, a parseable non-array, or an unparseable
string. -/
inductive ContactsVal where
  | objs (l : List Contact)
  | phones (l : List String)
  | nonArray
  | corrupt
deriving DecidableEq

/-- `SOSService.getContacts`: read `@contacts`, tolerate both formats, return
`[]` on absence, non-array, emptiness or parse error. -/
def getContacts : Option ContactsVal → List Contact
  | none => []
  | some (.objs l) => if l.length = 0 then [] else l
  | some (.phones l) =>
      if l.length = 0 then []
      else l.enum.map fun p =>
        { id := "contact_" ++ toString p.1,
          phone := p.2,
          name := "Contact " ++ toString (p.1 + 1) }
  | some .nonArray => []
  | some .corrupt => []

/-- External state of the SMS variant's `getLocation`: the permission-request
outcome and the live fix raced against the 10-second rejection timer (`none`
= the timer rejected first; the catch turns that into `{null, null}`). -/
structure Loc2Env where
  permRequestStatus : String
  livePosition : Option Coords

/-- SMS-variant `SOSService.getLocation`. -/
def getLocation (env : Loc2Env) : LocResult :=
  if env.permRequestStatus ≠ "granted" then ⟨none, none⟩
  else
    match env.livePosition with
    | some c => ⟨some (mapsUrl c), some c⟩
    | none => ⟨none, none⟩

/-- `SOSService.buildSOSMessage` (the literal text, including its mangled
UTF-8 emoji, as in the source). -/
def buildSOSMessage (nowLocale : String) (locationUrl : Option String) : String :=
  let locationText :=
    match locationUrl with
    | some url => "üìç Location: " ++ url
    | none => "üìç Location: Unable to get location"
  "üö® *EMERGENCY SOS ALERT!*\n\n‚ö†Ô∏è This is an EMERGENCY alert!\n" ++
    "I need IMMEDIATE help!\n\n" ++ locationText ++ "\n\nüïê Time: " ++
    nowLocale ++ "\n\nThis message was sent automatically from Smart SOS Scrunchie app."

/-- `phoneNumbers.join(',')`. -/
def joinComma (l : List String) : String :=
  String.intercalate "," l

/-- The unreserved characters `encodeURIComponent` leaves as-is. -/
def isUriUnreserved (c : Char) : Bool :=
  ('A' ≤ c && c ≤ 'Z') || ('a' ≤ c && c ≤ 'z') || ('0' ≤ c && c ≤ '9') ||
    c == '-' || c == '_' || c == '.' || c == '!' || c == '~' || c == '*' ||
      c == '\'' || c == '(' || c == ')'

/-- Upper-case hexadecimal digit. -/
def hexDigit (n : Nat) : Char :=
  (("0123456789ABCDEF").toList).getD n '0'

/-- `encodeURIComponent`: unreserved characters kept, everything else
percent-encoded as its UTF-8 bytes. -/
def encodeURIComponent (s : String) : String :=
  String.join (s.toList.map fun c =>
    if isUriUnreserved c then String.singleton c
    else String.join (((String.singleton c).toUTF8.toList).map fun b =>
      "%" ++ String.singleton (hexDigit (b.toNat / 16)) ++
        String.singleton (hexDigit (b.toNat % 16))))

/-- Resolutions of the awaited calls inside `sendEmergencySMS`. -/
structure SmsDelivEnv where
  platform : String
  smsPermGranted : Bool
  directSmsPresent : Bool
  directSmsError : Option String
  directSmsErrorIsPermissionDenied : Bool
  smsPermRetryGranted : Bool
  directSmsRetryError : Option String
  canOpenSms : Bool
  canOpenThrows : Bool
  openUrlThrows : Bool
deriving DecidableEq

/-- `SOSService.requestSmsPermission`: Android only; a denial or a request
error yields `false`. -/
def requestSmsPermission (env : SmsDelivEnv) : Bool :=
  if env.platform ≠ "android" then false else env.smsPermGranted

/-- The `SOS sent automatically to N contact(s)!` success outcome of the
native direct-send branch. -/
def autoSentOutcome (n : Nat) : Outcome :=
  { success := true,
    message := "üö® SOS sent automatically to " ++ toString n ++ " contact(s)!" }

/-- The success outcome of the combined composer handoff. -/
def composerOutcome (n : Nat) : Outcome :=
  { success := true,
    message := "üì± SMS app opened for " ++ toString n ++
      " contact(s). Please tap SEND!\n(Build development APK for automatic sending)" }

/-- The success outcome of the single-recipient composer fallback. -/
def composerManualOutcome (n : Nat) : Outcome :=
  { success := true,
    message := "üì± SMS app opened. Please send to all " ++ toString n ++
      " contacts manually." }

/-- The final failure outcome when no channel could be used. -/
def smsFailedOutcome : Outcome :=
  { success := false,
    message := "Could not open SMS app. Please send emergency message manually." }

/-- `SOSService.sendEmergencySMS`: native direct send (with one
permission-retry) on Android, then the combined-composer `Linking` fallback,
then the single-recipient composer fallback, else the final failure
outcome. -/
def sendEmergencySMS (env : SmsDelivEnv) (phoneNumbers : List String)
    (message : String) : Outcome × List Effect :=
  let androidStep : Option Outcome × List Effect :=
    if env.platform = "android" then
      let _hasPermission := requestSmsPermission env
      if env.directSmsPresent then
        match env.directSmsError with
        | none =>
          (some (autoSentOutcome phoneNumbers.length),
           [.directSmsSend (joinComma phoneNumbers) message])
        | some _ =>
          if env.directSmsErrorIsPermissionDenied then
            if env.smsPermRetryGranted then
              match env.directSmsRetryError with
              | none =>
                (some (autoSentOutcome phoneNumbers.length),
                 [.directSmsSend (joinComma phoneNumbers) message,
                  .directSmsSend (joinComma phoneNumbers) message])
              | some _ =>
                (none, [.directSmsSend (joinComma phoneNumbers) message,
                  .directSmsSend (joinComma phoneNumbers) message])
            else (none, [.directSmsSend (joinComma phoneNumbers) message])
          else (none, [.directSmsSend (joinComma phoneNumbers) message])
      else (none, [])
    else (none, [])
  match androidStep with
  | (some r, effs) => (r, effs)
  | (none, effs) =>
    let smsUri :=
      if env.platform = "ios" then
        "sms:" ++ joinComma phoneNumbers ++ "&body=" ++ encodeURIComponent message
      else
        "sms:" ++ joinComma phoneNumbers ++ "?body=" ++ encodeURIComponent message
    let combined : Option (Outcome × List Effect) :=
      if env.canOpenThrows then none
      else if env.canOpenSms then
        some (composerOutcome phoneNumbers.length, [.openUrl smsUri])
      else none
    match combined with
    | some (r, effs2) => (r, effs ++ effs2)
    | none =>
      let smsUri2 := "sms:" ++ phoneNumbers.headD "" ++ "?body=" ++
        encodeURIComponent message
      if env.openUrlThrows then
        (smsFailedOutcome, effs)
      else
        (composerManualOutcome phoneNumbers.length, effs ++ [.openUrl smsUri2])

/-- Environment of one SMS-variant trigger invocation.  `statusFail` models
the caller-supplied `onStatusUpdate` callback throwing at its `n`-th
invocation (the only awaited step of this variant whose exception is not
already swallowed by an inner catch), with the given error message. -/
structure SmsEnv where
  statusFail : Option (Nat × String)
  loc2 : Loc2Env
  deliv : SmsDelivEnv
  now : String
  nowLocale : String

/-- The exception (if any) raised by the `idx`-th `onStatusUpdate` call. -/
def statusThrow (env : SmsEnv) (idx : Nat) : Option String :=
  match env.statusFail with
  | some (i, msg) => if i = idx then some msg else none
  | none => none

/-- Mutable state of the SMS `SOSService`: the guard and the `@contacts` and
`@sos_logs` storage. -/
structure SmsState where
  isSending : Bool
  contacts : Option ContactsVal
  sosLogs : Option LogsVal
deriving DecidableEq

/-- SMS `SOSService.triggerSOS`: guard check, vibrate, load contacts (empty
list short-circuits), location, message build, `sendEmergencySMS`, history
append, success vibration; the catch clears the guard and returns
`SOS failed: ${error}` without touching the log. -/
def triggerSOS_sms (env : SmsEnv) (st : SmsState) :
    Outcome × SmsState × List Effect :=
  if st.isSending then
    ({ success := false, message := "SOS already in progress" }, st, [])
  else
    let effs0 : List Effect := [.vibrate [0, 500, 200, 500, 200, 500]]
    match statusThrow env 0 with
    | some err =>
      ({ success := false, message := "SOS failed: " ++ errToString err },
       { st with isSending := false }, effs0)
    | none =>
      let effs1 := effs0 ++ [.status "Loading contacts..."]
      let contacts := getContacts st.contacts
      if contacts.length = 0 then
        ({ success := false,
           message := "No emergency contacts configured. Please add contacts first." },
         { st with isSending := false }, effs1)
      else
        match statusThrow env 1 with
        | some err =>
          ({ success := false, message := "SOS failed: " ++ errToString err },
           { st with isSending := false }, effs1)
        | none =>
          let effs2 := effs1 ++ [.status "Getting your location..."]
          let locationResult := getLocation env.loc2
          match statusThrow env 2 with
          | some err =>
            ({ success := false, message := "SOS failed: " ++ errToString err },
             { st with isSending := false }, effs2)
          | none =>
            let effs3 := effs2 ++ [.status "Sending SOS message..."]
            let message := buildSOSMessage env.nowLocale locationResult.url
            let phoneNumbers := contacts.map Contact.phone
            let sendResult := sendEmergencySMS env.deliv phoneNumbers message
            let entry : SOSLog :=
              { timestamp := env.now, contacts := phoneNumbers,
                location := locationResult.url,
                success := sendResult.1.success, message := sendResult.1.message }
            (sendResult.1,
             { isSending := false, contacts := st.contacts,
               sosLogs := logSOSEvent entry st.sosLogs },
             effs3 ++ sendResult.2 ++ [.logWrite entry] ++
               (if sendResult.1.success then [.vibrate [0, 200, 100, 200]] else []))

/-! ### Concrete pipeline inputs used by witnesses and counterexamples -/

/-- A benign SMS-variant environment: nothing throws, composer available. -/
def smsEnv0 : SmsEnv :=
  { statusFail := none,
    loc2 := { permRequestStatus := "granted", livePosition := none },
    deliv :=
      { platform := "android", smsPermGranted := false, directSmsPresent := false,
        directSmsError := none, directSmsErrorIsPermissionDenied := false,
        smsPermRetryGranted := false, directSmsRetryError := none,
        canOpenSms := true, canOpenThrows := false, openUrlThrows := false },
    now := "2026-01-01T00:00:00.000Z", nowLocale := "1/1/2026, 12:00:00 AM" }

/-- A benign cloud-variant environment. -/
def cloudEnv0 : CloudEnv :=
  { loc := ⟨"granted", none, none, none⟩, initError := none,
    createAlertError := none, now := "2026-01-01T00:00:00.000Z" }

/-- SMS-variant state with no stored contacts and an empty stored log. -/
def smsStNoContacts : SmsState :=
  { isSending := false, contacts := none, sosLogs := some (.valid []) }

/-- SMS-variant environment whose first `onStatusUpdate` call throws. -/
def smsEnvBoom : SmsEnv :=
  { smsEnv0 with statusFail := some (0, "boom") }

/-- SMS-variant state with one stored contact and an empty stored log. -/
def smsStOneContact : SmsState :=
  { isSending := false, contacts := some (.phones ["+15551234567"]),
    sosLogs := some (.valid []) }

/-- Cloud-variant environment whose `firebaseService.init()` rejects. -/
def cloudEnvBoom : CloudEnv :=
  { cloudEnv0 with initError := some "network down" }

/-- Fifty-one sequential cloud trigger completions from a fresh service, the
`i`-th call (1-based) running with timestamp `toString i` in a benign
environment; every call completes and clears the guard, so the next call
proceeds. -/
def cloudRun (n : Nat) : CloudState :=
  (List.range n).foldl
    (fun st i => (triggerSOS_cloud { cloudEnv0 with now := toString (i + 1) } st).2.1)
    { isSending := false, sosLogs := none }

/-- The exception (if any) raised inside the `try` block of one cloud trigger
run: the modelled throw sites are `firebaseService.init()` and
`firebaseService.createSOSAlert` (every other awaited helper catches its own
errors), and `init` runs first. -/
def cloudException (env : CloudEnv) : Option String :=
  match env.initError with
  | some e => some e
  | none => env.createAlertError

/-- The exception (if any) raised inside the `try` block of one SMS trigger
run: the modelled throw sites are the three `onStatusUpdate` invocations
(every other awaited helper catches its own errors); the second and third are
reached only when the contact list is non-empty. -/
def smsException (env : SmsEnv) (st : SmsState) : Option String :=
  match statusThrow env 0 with
  | some e => some e
  | none =>
    if (getContacts st.contacts).length = 0 then none
    else
      match statusThrow env 1 with
      | some e => some e
      | none => statusThrow env 2

/-! ## Theorems -/

/-! ### Codec round-trip lemmas -/

theorem isB64Char_encChar : ∀ n, n < 64 → isB64Char (b64EncChar n) = true := by
  decide

theorem b64Index_encChar : ∀ n, n < 64 → b64Index (b64EncChar n) = n := by
  decide

theorem isB64Char_eq : isB64Char '=' = true := by decide

theorem b64Index_eq : b64Index '=' = 64 := by decide

set_option maxRecDepth 100000 in
theorem chr1_eq : ∀ b1, b1 < 256 → ∀ c, c < 16 →
    ((b1 / 4) <<< 2) ||| (((b1 % 4) * 16 + c) >>> 4) = b1 := by
  decide

set_option maxRecDepth 100000 in
theorem chr2_eq : ∀ a, a < 4 → ∀ b2, b2 < 256 → ∀ d, d < 4 →
    (((a * 16 + b2 / 16) &&& 15) <<< 4) ||| (((b2 % 16) * 4 + d) >>> 2) = b2 := by
  decide

set_option maxRecDepth 100000 in
theorem chr3_eq : ∀ e, e < 16 → ∀ b3, b3 < 256 →
    (((e * 4 + b3 / 64) &&& 3) <<< 6) ||| (b3 % 64) = b3 := by
  decide

/-- Round trip of the codec: decoding the standard base64 encoding of any
byte sequence yields the bytes back. -/
theorem base64_decode_encode (b : List Nat) (hb : ∀ x ∈ b, x < 256) :
    base64Decode (base64Encode b) = b := by
  induction b using base64Encode.induct with
  | case1 b1 b2 b3 rest ih =>
    have h1 : b1 < 256 := hb b1 (by simp)
    have h2 : b2 < 256 := hb b2 (by simp)
    have h3 : b3 < 256 := hb b3 (by simp)
    have hrest : ∀ x ∈ rest, x < 256 := fun x hx => hb x (by simp [hx])
    have e1lt : b1 / 4 < 64 := by omega
    have e2lt : (b1 % 4) * 16 + b2 / 16 < 64 := by omega
    have e3lt : (b2 % 16) * 4 + b3 / 64 < 64 := by omega
    have e4lt : b3 % 64 < 64 := by omega
    have ih' := ih hrest
    unfold base64Decode at ih' ⊢
    rw [base64Encode]
    rw [List.filter_cons_of_pos (isB64Char_encChar _ e1lt),
        List.filter_cons_of_pos (isB64Char_encChar _ e2lt),
        List.filter_cons_of_pos (isB64Char_encChar _ e3lt),
        List.filter_cons_of_pos (isB64Char_encChar _ e4lt)]
    rw [List.map_cons, List.map_cons, List.map_cons, List.map_cons]
    rw [b64Index_encChar _ e1lt, b64Index_encChar _ e2lt,
        b64Index_encChar _ e3lt, b64Index_encChar _ e4lt]
    show decodeLoop (_ :: _ :: _ :: _ :: _) = _
    rw [decodeLoop]
    rw [decode4]
    rw [chr1_eq b1 h1 (b2 / 16) (by omega),
        chr2_eq (b1 % 4) (by omega) b2 h2 (b3 / 64) (by omega),
        chr3_eq (b2 % 16) (by omega) b3 h3]
    rw [if_pos (by omega : (b2 % 16) * 4 + b3 / 64 ≠ 64),
        if_pos (by omega : b3 % 64 ≠ 64)]
    simp [ih']
  | case2 b1 b2 =>
    have h1 : b1 < 256 := hb b1 (by simp)
    have h2 : b2 < 256 := hb b2 (by simp)
    have e1lt : b1 / 4 < 64 := by omega
    have e2lt : (b1 % 4) * 16 + b2 / 16 < 64 := by omega
    have e3lt : (b2 % 16) * 4 < 64 := by omega
    unfold base64Decode
    rw [base64Encode]
    rw [List.filter_cons_of_pos (isB64Char_encChar _ e1lt),
        List.filter_cons_of_pos (isB64Char_encChar _ e2lt),
        List.filter_cons_of_pos (isB64Char_encChar _ e3lt),
        List.filter_cons_of_pos isB64Char_eq]
    simp only [List.map_cons, List.map_nil,
      b64Index_encChar _ e1lt, b64Index_encChar _ e2lt, b64Index_encChar _ e3lt, b64Index_eq]
    rw [decodeLoop, decode4]
    have hc1 := chr1_eq b1 h1 (b2 / 16) (by omega)
    have hc2 := chr2_eq (b1 % 4) (by omega) b2 h2 0 (by omega)
    rw [hc1]
    rw [if_pos (by omega : (b2 % 16) * 4 ≠ 64), if_neg (by omega : ¬ (64 : Nat) ≠ 64)]
    simp only [decodeLoop, List.append_nil]
    rw [(by rw [Nat.add_zero] at hc2; exact hc2 : (((b1 % 4 * 16 + b2 / 16) &&& 15) <<< 4) ||| ((b2 % 16 * 4) >>> 2) = b2)]
  | case3 b1 =>
    have h1 : b1 < 256 := hb b1 (by simp)
    have e1lt : b1 / 4 < 64 := by omega
    have e2lt : (b1 % 4) * 16 < 64 := by omega
    unfold base64Decode
    rw [base64Encode]
    rw [List.filter_cons_of_pos (isB64Char_encChar _ e1lt),
        List.filter_cons_of_pos (isB64Char_encChar _ e2lt),
        List.filter_cons_of_pos isB64Char_eq,
        List.filter_cons_of_pos isB64Char_eq]
    simp only [List.map_cons, List.map_nil,
      b64Index_encChar _ e1lt, b64Index_encChar _ e2lt, b64Index_eq]
    rw [decodeLoop, decode4]
    have hc1 := chr1_eq b1 h1 0 (by omega)
    rw [Nat.add_zero] at hc1
    rw [hc1]
    simp [decodeLoop]
  | case4 =>
    rfl

/-- C4: for every byte sequence `b`, decoding the standard base64 encoding of
`b` with `BLEService.base64Decode` yields `b` back, covering both the
multiple-of-3 lengths and the `=`-padded tails. -/
theorem C4_codec_roundtrip (b : List Nat) (hb : ∀ x ∈ b, x < 256) :
    base64Decode (base64Encode b) = b :=
  base64_decode_encode b hb

/-- Witness for C4 at a length-4 (hence padded) byte sequence. -/
theorem C4_codec_roundtrip_witness :
    (∀ x ∈ [83, 79, 83, 1], x < 256) ∧
      base64Decode (base64Encode [83, 79, 83, 1]) = [83, 79, 83, 1] :=
  ⟨by decide, C4_codec_roundtrip [83, 79, 83, 1] (by decide)⟩

/-! ### Substring characterisation of the classifier -/

theorem startsWith_iff (needle hay : List Char) :
    startsWith hay needle = true ↔ ∃ t, hay = needle ++ t := by
  induction needle generalizing hay with
  | nil => simp [startsWith]
  | cons b ns ih =>
    cases hay with
    | nil =>
      simp [startsWith]
    | cons a hs =>
      simp only [startsWith, Bool.and_eq_true, beq_iff_eq, ih, List.cons_append,
        List.cons.injEq]
      constructor
      · rintro ⟨rfl, t, rfl⟩; exact ⟨t, rfl, rfl⟩
      · rintro ⟨t, rfl, rfl⟩; exact ⟨rfl, t, rfl⟩

theorem jsIncludes_iff (hay needle : List Char) :
    jsIncludes hay needle = true ↔ ∃ p t, hay = p ++ needle ++ t := by
  induction hay with
  | nil =>
    simp only [jsIncludes, Bool.or_false, startsWith_iff]
    constructor
    · rintro ⟨t, ht⟩; exact ⟨[], t, by simpa using ht⟩
    · rintro ⟨p, t, ht⟩
      obtain ⟨hp, hn, htl⟩ := by simpa using ht.symm
      exact ⟨[], by simp [hn]⟩
  | cons a hs ih =>
    rw [jsIncludes]
    simp only [Bool.or_eq_true, startsWith_iff, ih]
    constructor
    · rintro (⟨t, ht⟩ | ⟨p, t, rfl⟩)
      · exact ⟨[], t, by simpa using ht⟩
      · exact ⟨a :: p, t, by simp⟩
    · rintro ⟨p, t, hp⟩
      cases p with
      | nil => exact Or.inl ⟨t, by simpa using hp⟩
      | cons x xs =>
        rcases List.cons.injEq .. ▸ hp with h
        simp only [List.cons_append, List.cons.injEq] at h
        exact Or.inr ⟨xs, t, h.2⟩

/-- C5: the SOS classification returns true iff the decoded text contains the
token `"SOS"` or the character `"1"` as a contiguous substring; in particular
it accepts `"SOS"` and `"x1y"` and rejects `"ok"`. -/
theorem C5_classify_spec :
    (∀ s : List Char,
        classifyAsSOS s = true ↔
          ((∃ p t, s = p ++ ("SOS").toList ++ t) ∨ (∃ p t, s = p ++ ("1").toList ++ t))) ∧
      classifyAsSOS (("SOS").toList) = true ∧
      classifyAsSOS (("x1y").toList) = true ∧
      classifyAsSOS (("ok").toList) = false := by
  refine ⟨fun s => ?_, by decide, by decide, by decide⟩
  simp only [classifyAsSOS, Bool.or_eq_true, jsIncludes_iff, SOS_SIGNAL]

set_option maxRecDepth 1000000 in
/-- C6: the history log is newest-first and capped at 50: each write prepends
one entry, dropping the oldest once 50 are held; after 51 sequential
completions — both at the `logSOSEvent` level and through 51 full
`triggerSOS` cloud-pipeline runs — the log holds exactly entries 51 down to
2, newest first, so the 51st entry is present and the 1st is gone. -/
theorem C6_history_capacity :
    (∀ (e : SOSLog) (logs : List SOSLog),
        (logs.length < 50 → logAppend e logs = e :: logs) ∧
        (logs.length = 50 → logAppend e logs = e :: logs.dropLast) ∧
        (logs.length ≤ 50 →
          (logAppend e logs).head? = some e ∧
            (logAppend e logs).length = min (logs.length + 1) 50)) ∧
    logAfter51.length = 50 ∧
    logAfter51.head? = some (mkEntry 51) ∧
    mkEntry 51 ∈ logAfter51 ∧
    mkEntry 1 ∉ logAfter51 ∧
    logAfter51 = (List.range 50).map (fun i => mkEntry (51 - i)) ∧
    (cloudRun 51).isSending = false ∧
    (cloudRun 51).sosLogs = some (.valid ((List.range 50).map (fun k =>
      mkCloudLog (toString (51 - k)) none true
        "SOS Alert Sent Successfully to all contacts!"))) := by
  refine ⟨fun e logs => ⟨?_, ?_, ?_⟩, by decide, by decide, by decide, by decide,
    by decide, by decide, by decide⟩
  · intro h
    simp only [logAppend, List.length_cons]
    rw [if_neg (by omega)]
  · intro h
    simp only [logAppend, List.length_cons]
    rw [if_pos (by omega), List.dropLast_cons_of_ne_nil (by
      intro hn; rw [hn] at h; simp at h)]
  · intro h
    simp only [logAppend, List.length_cons]
    by_cases h50 : logs.length + 1 > 50
    · rw [if_pos h50]
      constructor
      · rw [List.dropLast_cons_of_ne_nil (by intro hn; rw [hn] at h50; simp at h50)]
        rfl
      · simp [List.length_dropLast]
        omega
    · rw [if_neg h50]
      constructor
      · rfl
      · simp
        omega

/-- Witness for C6 at a concrete entry and log. -/
theorem C6_history_capacity_witness :
    logAppend (mkEntry 7) [mkEntry 6] = [mkEntry 7, mkEntry 6] :=
  (C6_history_capacity.1 (mkEntry 7) [mkEntry 6]).1 (by decide)

/-- C10: `getSOSHistory` never throws: an absent or unparseable stored log
yields `[]`, a stored array is returned as is, and the storage is left
unchanged by the read. -/
theorem C10_getHistory_total (store : Option LogsVal) :
    (store = none → (getSOSHistory store).1 = []) ∧
    (store = some .corrupt → (getSOSHistory store).1 = []) ∧
    (∀ logs, store = some (.valid logs) → (getSOSHistory store).1 = logs) ∧
    (getSOSHistory store).2 = store := by
  refine ⟨?_, ?_, ?_, rfl⟩
  · rintro rfl; rfl
  · rintro rfl; rfl
  · rintro logs rfl; rfl

/-- Witness for C10 at a corrupt store. -/
theorem C10_getHistory_total_witness :
    (getSOSHistory (some .corrupt)).1 = [] :=
  (C10_getHistory_total (some .corrupt)).2.1 rfl

theorem getLocationFast_granted (env : LocEnv)
    (hperm : env.permStatus = "granted" ∨ env.permRequest = some "granted") :
    getLocationFast env =
      match env.livePosition with
      | some c => ⟨some (mapsUrl c), some c⟩
      | none =>
        match env.lastKnown with
        | some c => ⟨some (mapsUrl c), some c⟩
        | none => ⟨none, none⟩ := by
  unfold getLocationFast
  rcases hperm with h | h
  · rw [h]
    simp
  · rw [h]
    by_cases hps : env.permStatus = "granted" <;> simp [hps]

/-- C7: whenever the location permission is held or granted within the
bounded request and the live-position race times out, the acquirer falls back
to the cached last-known position if present and otherwise returns no
coordinates (still a normal result, not an error); any returned link has
exactly the `https://maps.google.com/?q=<lat>,<lng>` shape, and `(37, -122)`
yields `https://maps.google.com/?q=37,-122`. -/
theorem C7_location_fallback (env : LocEnv)
    (hperm : env.permStatus = "granted" ∨ env.permRequest = some "granted")
    (hlive : env.livePosition = none) :
    (∀ c, env.lastKnown = some c →
        getLocationFast env = ⟨some (mapsUrl c), some c⟩) ∧
    (env.lastKnown = none → getLocationFast env = ⟨none, none⟩) ∧
    (∀ c, (getLocationFast env).coords = some c →
        (getLocationFast env).url = some (mapsUrl c)) ∧
    mapsUrl ⟨37, -122⟩ = "https://maps.google.com/?q=37,-122" := by
  have hg := getLocationFast_granted env hperm
  rw [hlive] at hg
  refine ⟨?_, ?_, ?_, by decide⟩
  · intro c hc
    rw [hg, hc]
  · intro hc
    rw [hg, hc]
  · intro c hc
    cases hlast : env.lastKnown with
    | some c0 =>
      rw [hg, hlast] at hc ⊢
      simp at hc
      rw [hc]
    | none =>
      rw [hg, hlast] at hc
      simp at hc

/-- Witness for C7: permission granted, live fix timed out, last-known
`(37, -122)`. -/
theorem C7_location_fallback_witness :
    getLocationFast ⟨"granted", none, none, some ⟨37, -122⟩⟩ =
      ⟨some "https://maps.google.com/?q=37,-122", some ⟨37, -122⟩⟩ := by
  have h := (C7_location_fallback ⟨"granted", none, none, some ⟨37, -122⟩⟩
    (Or.inl rfl) rfl).1 ⟨37, -122⟩ rfl
  rw [h]
  have h4 := (C7_location_fallback ⟨"granted", none, none, some ⟨37, -122⟩⟩
    (Or.inl rfl) rfl).2.2.2
  rw [h4]

theorem addDevice_nodup (acc : List Device) (d : Device)
    (h : ((acc.map Device.id)).Nodup) :
    (((addDevice acc d).map Device.id)).Nodup := by
  unfold addDevice
  by_cases hmem : acc.any (fun x => x.id == d.id)
  · rw [if_pos hmem]; exact h
  · rw [if_neg hmem]
    rw [List.map_append, List.map_singleton]
    rw [List.nodup_append]
    refine ⟨h, List.nodup_singleton _, ?_⟩
    intro x hx hy
    simp only [List.mem_singleton] at hy
    subst hy
    apply hmem
    rw [List.any_eq_true]
    rcases List.mem_map.mp hx with ⟨dev, hdev, hid⟩
    exact ⟨dev, hdev, by simp [hid]⟩

theorem foldl_addDevice_nodup (l : List Device) (acc : List Device)
    (h : ((acc.map Device.id)).Nodup) :
    (((l.foldl addDevice acc).map Device.id)).Nodup := by
  induction l generalizing acc with
  | nil => exact h
  | cons d rest ih => exact ih (addDevice acc d) (addDevice_nodup acc d h)

theorem scanEmit_id (e : ScanEvent) (d : Device) (h : scanEmit e = some d) :
    ∃ rd, e.device = some rd ∧ d.id = rd.id := by
  unfold scanEmit at h
  rw [show e.error = e.error from rfl] at h
  cases herr : e.error with
  | true => rw [herr] at h; simp at h
  | false =>
    rw [herr] at h
    simp only [if_neg (by simp : ¬ (false = true))] at h
    cases hdev : e.device with
    | none => rw [hdev] at h; simp at h
    | some d0 =>
      rw [hdev] at h
      dsimp only at h
      cases hn : d0.name with
      | none => rw [hn] at h; simp at h
      | some n =>
        rw [hn] at h
        dsimp only at h
        by_cases hif : (decide (n ≠ "") && nameMatches n) = true
        · rw [if_pos hif] at h
          cases h
          exact ⟨d0, rfl, rfl⟩
        · rw [if_neg hif] at h; simp at h

theorem scanEmitted_sublist_ids (events : List ScanEvent) :
    ((scanEmitted events).map Device.id).Sublist
      ((events.filterMap ScanEvent.device).map Device.id) := by
  induction events with
  | nil => simp [scanEmitted]
  | cons e rest ih =>
    unfold scanEmitted at ih ⊢
    rw [List.filterMap_cons, List.filterMap_cons]
    cases hemit : scanEmit e with
    | none =>
      cases hdev : e.device with
      | none => exact ih
      | some rd => rw [List.map_cons]; exact ih.cons _
    | some d =>
      rcases scanEmit_id e d hemit with ⟨rd, hdev, hid⟩
      rw [hdev, List.map_cons, List.map_cons, hid]
      exact ih.cons₂ _

/-- C9: every device emitted to the scan sink has a name containing one of
`HM`, `BT`, `SOS`, `MLT`, `BLE`; under the `allowDuplicates: false` contract
(no identifier occurs twice in the native event stream) no identifier is
emitted twice; and the screen's discovered-device list holds at most one entry
per identifier even when the native stream does repeat identifiers. -/
theorem C9_scan_filter_dedup (events : List ScanEvent)
    (hnodup : ((events.filterMap ScanEvent.device).map Device.id).Nodup) :
    (∀ d ∈ scanEmitted events, ∃ n, d.name = some n ∧ nameMatches n = true) ∧
    ((scanEmitted events).map Device.id).Nodup ∧
    (∀ events2 : List ScanEvent, ((devicesAfter events2).map Device.id).Nodup) := by
  refine ⟨?_, hnodup.sublist (scanEmitted_sublist_ids events), ?_⟩
  · intro d hd
    rcases List.mem_filterMap.mp hd with ⟨e, _, hemit⟩
    unfold scanEmit at hemit
    split at hemit
    · exact absurd hemit (by simp)
    · split at hemit
      · exact absurd hemit (by simp)
      · split at hemit
        · exact absurd hemit (by simp)
        · split at hemit
          · rename_i d0 n hn hif
            cases hemit
            exact ⟨n, rfl, (Bool.and_eq_true ..).mp hif |>.2⟩
          · exact absurd hemit (by simp)
  · intro events2
    exact foldl_addDevice_nodup _ [] (by simp)

/-- Witness for C9: a session where the same peripheral is reported once and a
noise device is filtered out. -/
theorem C9_scan_filter_dedup_witness :
    (∀ d ∈ scanEmitted
        [⟨false, some ⟨"aa", some "HM-10", none⟩⟩,
         ⟨false, some ⟨"bb", some "Speaker", none⟩⟩],
      ∃ n, d.name = some n ∧ nameMatches n = true) ∧
    ((scanEmitted
        [⟨false, some ⟨"aa", some "HM-10", none⟩⟩,
         ⟨false, some ⟨"bb", some "Speaker", none⟩⟩]).map Device.id).Nodup ∧
    (∀ events2 : List ScanEvent, ((devicesAfter events2).map Device.id).Nodup) :=
  C9_scan_filter_dedup
    [⟨false, some ⟨"aa", some "HM-10", none⟩⟩,
     ⟨false, some ⟨"bb", some "Speaker", none⟩⟩]
    (by decide)

/-- Counterexample to C8 as stated: with the transport connect and discovery
succeeding but the subscription and its fallback both failing unrecoverably,
`connectToDevice` still returns `true` and a `Connection` exists
(`isConnected` is `true`, `getConnectedDevice` is the device). -/
theorem C8_counterexample :
    subscribeToNotifications ⟨true, true, true, true, false⟩ = .swallowed ∧
    (connectToDevice ⟨true, true, true, true, false⟩ ⟨"aa", some "HM-10", none⟩
        ⟨none, true⟩).1 = true ∧
    isConnected (connectToDevice ⟨true, true, true, true, false⟩
        ⟨"aa", some "HM-10", none⟩ ⟨none, true⟩).2 = true ∧
    getConnectedDevice (connectToDevice ⟨true, true, true, true, false⟩
        ⟨"aa", some "HM-10", none⟩ ⟨none, true⟩).2 = some ⟨"aa", some "HM-10", none⟩ := by
  decide

/-- C8 (amended): a failure at the transport connect or at service discovery
makes `connectToDevice` report failure with no `Connection` (`isConnected`
false, `getConnectedDevice` null); failures at subscription, however, are
swallowed inside `subscribeToNotifications` and `connectToDevice` still
reports success with the `Connection` kept. -/
theorem C8_connect_failure (env : BleEnv) (dev : Device) (st : LinkState)
    (hm : env.managerPresent = true) :
    (env.connectOk = false ∨ env.discoverOk = false →
        (connectToDevice env dev st).1 = false ∧
        isConnected (connectToDevice env dev st).2 = false ∧
        getConnectedDevice (connectToDevice env dev st).2 = none) ∧
    (env.connectOk = true → env.discoverOk = true →
        (connectToDevice env dev st).1 = true ∧
        getConnectedDevice (connectToDevice env dev st).2 = some dev) := by
  constructor
  · intro hfail
    rcases hfail with hc | hd
    · simp [connectToDevice, hm, hc, isConnected, getConnectedDevice]
    · cases hco : env.connectOk <;>
        simp [connectToDevice, hm, hco, hd, isConnected, getConnectedDevice]
  · intro hc hd
    simp [connectToDevice, hm, hc, hd, isConnected, getConnectedDevice]

/-- Witness for C8 (amended) at a failing discovery step. -/
theorem C8_connect_failure_witness :
    (connectToDevice ⟨true, true, false, false, true⟩ ⟨"aa", some "HM-10", none⟩
        ⟨none, false⟩).1 = false :=
  ((C8_connect_failure ⟨true, true, false, false, true⟩ ⟨"aa", some "HM-10", none⟩
      ⟨none, false⟩ rfl).1 (Or.inr rfl)).1

/-! ### Claims about the dispatch pipeline -/

/-- C1: with the single-flight guard set, both variants of `triggerSOS`
return `{success:false, message:'SOS already in progress'}` immediately,
perform no effect at all (no history append, no channel), and leave the state
untouched; the message contains `already in progress`. -/
theorem C1_guard_rejects (envC : CloudEnv) (stC : CloudState)
    (envS : SmsEnv) (stS : SmsState)
    (hC : stC.isSending = true) (hS : stS.isSending = true) :
    triggerSOS_cloud envC stC =
      ({ success := false, message := "SOS already in progress" }, stC, []) ∧
    triggerSOS_sms envS stS =
      ({ success := false, message := "SOS already in progress" }, stS, []) ∧
    jsIncludes (("SOS already in progress").toList)
      (("already in progress").toList) = true := by
  refine ⟨?_, ?_, by decide⟩
  · unfold triggerSOS_cloud
    rw [hC]
    rfl
  · unfold triggerSOS_sms
    rw [hS]
    rfl

/-- Witness for C1: a guarded state rejects a second trigger unchanged. -/
theorem C1_guard_rejects_witness :
    triggerSOS_sms smsEnv0 { isSending := true, contacts := none, sosLogs := none } =
      ({ success := false, message := "SOS already in progress" },
       { isSending := true, contacts := none, sosLogs := none }, []) :=
  (C1_guard_rejects cloudEnv0 { isSending := true, sosLogs := none } smsEnv0
    { isSending := true, contacts := none, sosLogs := none } rfl rfl).2.1

/-- Counterexample to C2 as stated: with an empty recipient list the SMS
variant returns failure, but its message is
`No emergency contacts configured. Please add contacts first.` (not the
claimed `no emergency contacts configured`), and no history entry is appended
— the stored log is left exactly as it was. -/
theorem C2_counterexample :
    (triggerSOS_sms smsEnv0 smsStNoContacts).1.success = false ∧
    (triggerSOS_sms smsEnv0 smsStNoContacts).1.message ≠
      "no emergency contacts configured" ∧
    (triggerSOS_sms smsEnv0 smsStNoContacts).2.1.sosLogs = some (.valid []) ∧
    ((triggerSOS_sms smsEnv0 smsStNoContacts).2.2.filter isChannelEffect) = [] := by
  decide

/-- C2 (amended): with an empty fetched recipient list, `triggerSOS` returns
`{success:false, message:'No emergency contacts configured. Please add
contacts first.'}`, attempts no delivery channel, appends no history entry,
and only clears the guard. -/
theorem C2_no_contacts (env : SmsEnv) (st : SmsState)
    (hguard : st.isSending = false)
    (hstatus : statusThrow env 0 = none)
    (hempty : getContacts st.contacts = []) :
    (triggerSOS_sms env st).1 =
      { success := false,
        message := "No emergency contacts configured. Please add contacts first." } ∧
    (triggerSOS_sms env st).2.1 = { st with isSending := false } ∧
    ((triggerSOS_sms env st).2.2.filter isChannelEffect) = [] := by
  unfold triggerSOS_sms
  rw [hguard, hstatus, hempty]
  refine ⟨rfl, rfl, rfl⟩

/-- Witness for C2 (amended) at the empty contact store. -/
theorem C2_no_contacts_witness :
    (triggerSOS_sms smsEnv0 smsStNoContacts).1 =
      { success := false,
        message := "No emergency contacts configured. Please add contacts first." } :=
  (C2_no_contacts smsEnv0 smsStNoContacts rfl rfl rfl).1

/-- Counterexample to C3 as stated: when an exception is raised after the
guard is set (here the first `onStatusUpdate` call throwing `boom` in the SMS
variant), the catch returns a failure outcome and clears the guard, but the
history-append of step 7 does **not** happen — the stored log is unchanged. -/
theorem C3_counterexample :
    (triggerSOS_sms smsEnvBoom smsStOneContact).1 =
      { success := false, message := "SOS failed: Error: boom" } ∧
    (triggerSOS_sms smsEnvBoom smsStOneContact).2.1.isSending = false ∧
    (triggerSOS_sms smsEnvBoom smsStOneContact).2.1.sosLogs = some (.valid []) := by
  decide

/-- C3 (amended): every exception raised after the guard is set — at any of
the modelled throw sites: `init()` or `createSOSAlert` in the cloud variant,
any of the three status-callback invocations in the SMS variant — is caught
at the top level and turned into a failure outcome incorporating the
exception, and the guard is always cleared; the cloud variant's catch also
appends a failure history entry, the SMS variant's catch appends none, and
neither variant emits its completion haptic on the exception path. -/
theorem C3_exception_outcome (envC : CloudEnv) (stC : CloudState) (errC : String)
    (hC : stC.isSending = false) (hCe : cloudException envC = some errC)
    (envS : SmsEnv) (stS : SmsState) (errS : String)
    (hS : stS.isSending = false) (hSe : smsException envS stS = some errS) :
    (triggerSOS_cloud envC stC).1 =
      { success := false, message := "SOS failed: " ++ errC } ∧
    (triggerSOS_cloud envC stC).2.1 =
      { isSending := false,
        sosLogs := logSOSEvent (mkCloudLog envC.now none false (errToString errC))
          stC.sosLogs } ∧
    Effect.vibrate [0, 100, 50, 100, 50, 100] ∉ (triggerSOS_cloud envC stC).2.2 ∧
    (triggerSOS_sms envS stS).1 =
      { success := false, message := "SOS failed: " ++ errToString errS } ∧
    (triggerSOS_sms envS stS).2.1 = { stS with isSending := false } ∧
    Effect.vibrate [0, 200, 100, 200] ∉ (triggerSOS_sms envS stS).2.2 := by
  have hcloud : (triggerSOS_cloud envC stC).1 =
      { success := false, message := "SOS failed: " ++ errC } ∧
      (triggerSOS_cloud envC stC).2.1 =
        { isSending := false,
          sosLogs := logSOSEvent (mkCloudLog envC.now none false (errToString errC))
            stC.sosLogs } ∧
      Effect.vibrate [0, 100, 50, 100, 50, 100] ∉ (triggerSOS_cloud envC stC).2.2 := by
    unfold cloudException at hCe
    cases hinit : envC.initError with
    | some e =>
      rw [hinit] at hCe
      simp only [Option.some.injEq] at hCe
      subst hCe
      unfold triggerSOS_cloud
      rw [hC, hinit]
      refine ⟨rfl, rfl, ?_⟩
      simp
    | none =>
      rw [hinit] at hCe
      simp only at hCe
      unfold triggerSOS_cloud
      rw [hC, hinit, hCe]
      refine ⟨rfl, rfl, ?_⟩
      cases hcoords : (getLocationFast envC.loc).coords with
      | some c => simp [hcoords]
      | none => simp [hcoords]
  have hsms : (triggerSOS_sms envS stS).1 =
      { success := false, message := "SOS failed: " ++ errToString errS } ∧
      (triggerSOS_sms envS stS).2.1 = { stS with isSending := false } ∧
      Effect.vibrate [0, 200, 100, 200] ∉ (triggerSOS_sms envS stS).2.2 := by
    unfold smsException at hSe
    cases h0 : statusThrow envS 0 with
    | some e =>
      rw [h0] at hSe
      simp only [Option.some.injEq] at hSe
      subst hSe
      unfold triggerSOS_sms
      rw [hS, h0]
      refine ⟨rfl, rfl, ?_⟩
      simp
    | none =>
      rw [h0] at hSe
      simp only at hSe
      by_cases hlen : (getContacts stS.contacts).length = 0
      · rw [if_pos hlen] at hSe
        exact absurd hSe (by simp)
      · rw [if_neg hlen] at hSe
        cases h1 : statusThrow envS 1 with
        | some e =>
          rw [h1] at hSe
          simp only [Option.some.injEq] at hSe
          subst hSe
          unfold triggerSOS_sms
          simp only [hS, h0, h1, if_neg hlen]
          refine ⟨rfl, rfl, ?_⟩
          simp
        | none =>
          rw [h1] at hSe
          simp only at hSe
          unfold triggerSOS_sms
          simp only [hS, h0, h1, hSe, if_neg hlen]
          refine ⟨rfl, rfl, ?_⟩
          simp
  exact ⟨hcloud.1, hcloud.2.1, hcloud.2.2, hsms.1, hsms.2.1, hsms.2.2⟩

/-- Witness for C3 (amended): a rejecting `init()` in the cloud variant and a
throwing status callback in the SMS variant. -/
theorem C3_exception_outcome_witness :
    (triggerSOS_cloud cloudEnvBoom { isSending := false, sosLogs := none }).1 =
      { success := false, message := "SOS failed: network down" } ∧
    Effect.vibrate [0, 200, 100, 200] ∉ (triggerSOS_sms smsEnvBoom smsStOneContact).2.2 :=
  ⟨(C3_exception_outcome cloudEnvBoom { isSending := false, sosLogs := none }
      "network down" rfl (by decide) smsEnvBoom smsStOneContact "boom" rfl (by decide)).1,
   (C3_exception_outcome cloudEnvBoom { isSending := false, sosLogs := none }
      "network down" rfl (by decide) smsEnvBoom smsStOneContact "boom" rfl
      (by decide)).2.2.2.2.2⟩

end SosApp
